import Mathlib

/-!
Verification development for the porto-data cross-file consistency validator
(`scripts/validators/links.py` and `scripts/validators/helpers.py`).

The Python code is shallowly embedded: every JSON document the validator loads
is modelled as a structure of optional fields (a missing key is `none`, mirroring
Python's `dict.get`), Python dictionaries are association lists iterated in
insertion order (lookup is last-binding-wins, matching dict-comprehension
overwrite semantics), and Python sets of strings are kept in a canonical
sorted-duplicate-free list form so that set equality, difference, membership and
`sorted(...)` all become plain list operations.  The four result buckets are
lists of message strings appended in encounter order, exactly as the Python
`results` dictionary of lists.
-/

namespace Porto

/-- Single-quote character, used to render Python message strings. -/
def sq : String := String.singleton (Char.ofNat 39)

/-- Render an optional string the way a Python f-string renders the value
(`None` for a missing value, the bare text otherwise). -/
def pyShowOpt : Option String → String
  | none => "None"
  | some s => s

/-- Python truthiness of an optional string: `None` and `""` are falsy. -/
def pyStrTruthy : Option String → Bool
  | none => false
  | some s => s != ""

/-- Render a list of strings the way Python `repr` renders a list of `str`
values, e.g. `['a', 'b']`. -/
def pyReprList (xs : List String) : String :=
  "[" ++ String.intercalate ", " (xs.map (fun s => sq ++ s ++ sq)) ++ "]"

/-- Lexicographic comparison of character lists by code point; this is the
ordering Python uses on `str`. -/
def lexLe : List Char → List Char → Bool
  | [], _ => true
  | _ :: _, [] => false
  | a :: as, b :: bs =>
    if a.toNat < b.toNat then true
    else if b.toNat < a.toNat then false
    else lexLe as bs

/-- String comparison by code points (Python `<=` on `str`). -/
def strLe (a b : String) : Bool := lexLe a.data b.data

/-- Insert a string into an already sorted list. -/
def insertSorted (x : String) : List String → List String
  | [] => [x]
  | y :: ys => if strLe x y then x :: y :: ys else y :: insertSorted x ys

/-- Insertion sort over strings, the model of Python `sorted(...)`. -/
def sortStrings (l : List String) : List String := l.foldr insertSorted []

/-- Drop adjacent duplicates of a sorted list. -/
def dedupSorted : List String → List String
  | [] => []
  | [x] => [x]
  | x :: y :: rest =>
    if x = y then dedupSorted (y :: rest) else x :: dedupSorted (y :: rest)

/-- Canonical form of a Python `set` of strings: sorted and duplicate free.
All set values in the embedding are kept in this form, so Python set equality
is list equality and `sorted(s)` is `s` itself. -/
def strSetOf (l : List String) : List String := dedupSorted (sortStrings l)

/-- Python set difference `a - b` on canonical sets (the result stays
canonical because `filter` preserves sortedness). -/
def strDiff (a b : List String) : List String := a.filter (fun x => !(b.contains x))

/-- Lookup in a Python dict modelled as an association list: the last binding
of a key wins, matching dict-comprehension overwrite semantics. -/
def pyDictGet {α : Type} (d : List (String × α)) (k : String) : Option α :=
  d.foldl (fun acc kv => if kv.1 = k then some kv.2 else acc) none

/-- Python `key in dict`. -/
def pyDictContains {α : Type} (d : List (String × α)) (k : String) : Bool :=
  (pyDictGet d k).isSome

/-- Python `set(dict.keys())` in canonical form. -/
def pyDictKeys {α : Type} (d : List (String × α)) : List String :=
  strSetOf (d.map Prod.fst)

/-- Replace every occurrence of a nonempty pattern, scanning left to right
without overlap; fuel-driven so that the kernel can evaluate it. -/
def listReplaceAux (pat rep : List Char) : Nat → List Char → List Char
  | _, [] => []
  | 0, l => l
  | fuel + 1, c :: rest =>
    if pat.isPrefixOf (c :: rest) then
      rep ++ listReplaceAux pat rep fuel ((c :: rest).drop pat.length)
    else c :: listReplaceAux pat rep fuel rest

/-- Python `str.replace(pat, rep)` for a nonempty pattern (the validator only
replaces the literal `".json"`; Python's empty-pattern behaviour differs and is
not needed). -/
def pyStrReplace (s pat rep : String) : String :=
  if pat.isEmpty then s else ⟨listReplaceAux pat.data rep.data s.data.length s.data⟩

/-- Python `str.capitalize()`: first character upper-cased, the rest
lower-cased. -/
def pyCapitalize (s : String) : String :=
  match s.data with
  | [] => ""
  | c :: rest => ⟨c.toUpper :: rest.map Char.toLower⟩

/-! ## Document model

One structure per JSON document loaded by `DataLinksValidator.load_data`.
Every field read through `dict.get` is an `Option`; `hasExtra` records whether
the underlying JSON object carries keys outside the modelled ones, which only
matters for Python dict truthiness (`{}` is falsy, any nonempty dict truthy). -/

/-- The `unit` block carried by several documents. -/
structure UnitBlock where
  weight : Option String
  dimension : Option String
  price : Option String
  currency : Option String
deriving DecidableEq

/-- The `global_settings.lookup_method` object. `match_keys` is the key list of
its `match` object (`match` itself is a reserved word in Lean); only the keys
are ever read by the validator. -/
structure LookupMethod where
  file : Option String
  array : Option String
  match_keys : Option (List String)
deriving DecidableEq

/-- The `global_settings` object of `data_links.json`. -/
structure GlobalSettings where
  lookup_method : Option LookupMethod
  price_source : Option String
  available_services : Option (List String)
deriving DecidableEq

/-- One entry of `data_links.links`, keyed by product id. -/
structure LinkData where
  zones : Option (List String)
  weight_tiers : Option (List String)
deriving DecidableEq

/-- One entry of `data_links.dependencies`. -/
structure DepData where
  file : Option String
  depends_on : Option (List String)
deriving DecidableEq

/-- The `data_links.json` document. -/
structure DataLinksDoc where
  global_settings : Option GlobalSettings
  links : Option (List (String × LinkData))
  dependencies : Option (List (String × DepData))
  unit : Option UnitBlock
  hasExtra : Bool
deriving DecidableEq

/-- Python truthiness of the loaded `data_links` dict. -/
def DataLinksDoc.truthy (d : DataLinksDoc) : Bool :=
  d.hasExtra || d.global_settings.isSome || d.links.isSome ||
    d.dependencies.isSome || d.unit.isSome

/-- One product record; `id` is accessed with a raising index lookup in the
source, so it is modelled as required. -/
structure Product where
  id : String
  supported_zones : Option (List String)
  weight_tier : Option String
deriving DecidableEq

/-- The `products.json` document. -/
structure ProductsDoc where
  products : Option (List Product)
  unit : Option UnitBlock
  hasExtra : Bool
deriving DecidableEq

/-- Python truthiness of the loaded `products` dict. -/
def ProductsDoc.truthy (d : ProductsDoc) : Bool :=
  d.hasExtra || d.products.isSome || d.unit.isSome

/-- One zone record. -/
structure Zone where
  id : String
deriving DecidableEq

/-- The `zones.json` document. -/
structure ZonesDoc where
  zones : Option (List Zone)
  hasExtra : Bool
deriving DecidableEq

/-- The `weight_tiers.json` document; `weight_tiers` is the key list of its
`weight_tiers` object (only the keys are read). -/
structure WeightTiersDoc where
  weight_tiers : Option (List String)
  unit : Option UnitBlock
  hasExtra : Bool
deriving DecidableEq

/-- Python truthiness of the loaded `weight_tiers` dict. -/
def WeightTiersDoc.truthy (d : WeightTiersDoc) : Bool :=
  d.hasExtra || d.weight_tiers.isSome || d.unit.isSome

/-- One service record. -/
structure Service where
  id : String
  effective_to : Option String
deriving DecidableEq

/-- The `services.json` document. -/
structure ServicesDoc where
  services : Option (List Service)
  hasExtra : Bool
deriving DecidableEq

/-- Python truthiness of the loaded `services` dict. -/
def ServicesDoc.truthy (d : ServicesDoc) : Bool :=
  d.hasExtra || d.services.isSome

/-- One item of a price-history array; only `effective_to` is read. -/
structure PriceItem where
  effective_to : Option String
deriving DecidableEq

/-- One product-price entry.  `weight_tier` is accessed with a raising index
lookup in `_validate_product_weight_tiers`, so it is modelled as required;
`keys` is the JSON key set of the entry, read by the `lookup_method.match`
check. -/
structure ProductPrice where
  product_id : Option String
  zone : Option String
  weight_tier : String
  keys : List String
deriving DecidableEq

/-- One service-price entry; `price` is its price-history array. -/
structure ServicePrice where
  service_id : Option String
  price : Option (List PriceItem)
deriving DecidableEq

/-- The object under the `prices` key of `prices.json`. -/
structure PricesInner where
  product_prices : Option (List ProductPrice)
  service_prices : Option (List ServicePrice)
deriving DecidableEq

/-- The `prices.json` document. -/
structure PricesDoc where
  prices : Option PricesInner
  unit : Option UnitBlock
  hasExtra : Bool
deriving DecidableEq

/-- Python truthiness of the loaded `prices` dict. -/
def PricesDoc.truthy (d : PricesDoc) : Bool :=
  d.hasExtra || d.prices.isSome || d.unit.isSome

/-- The `dimensions.json` document. -/
structure DimensionsDoc where
  unit : Option UnitBlock
  hasExtra : Bool
deriving DecidableEq

/-- Python truthiness of the loaded `dimensions` dict. -/
def DimensionsDoc.truthy (d : DimensionsDoc) : Bool :=
  d.hasExtra || d.unit.isSome

/-! ## Validation results -/

/-- The four result buckets of `ValidationResults` in `validators/base.py`. -/
structure ValidationResults where
  errors : List String
  warnings : List String
  fixes_needed : List String
  correct : List String
deriving DecidableEq

/-- Python `results["errors"].append(msg)`. -/
def ValidationResults.addError (r : ValidationResults) (msg : String) : ValidationResults :=
  { r with errors := r.errors ++ [msg] }

/-- Python `results["warnings"].append(msg)`. -/
def ValidationResults.addWarning (r : ValidationResults) (msg : String) : ValidationResults :=
  { r with warnings := r.warnings ++ [msg] }

/-- Python `results["fixes_needed"].append(msg)`. -/
def ValidationResults.addFixes (r : ValidationResults) (msg : String) : ValidationResults :=
  { r with fixes_needed := r.fixes_needed ++ [msg] }

/-- Python `results["correct"].append(msg)`. -/
def ValidationResults.addCorrect (r : ValidationResults) (msg : String) : ValidationResults :=
  { r with correct := r.correct ++ [msg] }

/-- All four buckets empty, as in `DataLinksValidator.__init__`. -/
def emptyResults : ValidationResults := ⟨[], [], [], []⟩

/-! ## File name and business constants

The file names come from the repository's `mappings.json` (the single source of
truth outside the validator); they are the names the repository's tests use
throughout.  The business constants are the literals of `links.py`. -/

/-- Canonical name of the data-links document. -/
def DATA_LINKS_FILE : String := "data_links.json"

/-- Canonical name of the products document. -/
def PRODUCTS_FILE : String := "products.json"

/-- Canonical name of the zones document. -/
def ZONES_FILE : String := "zones.json"

/-- Canonical name of the weight-tiers document. -/
def WEIGHT_TIERS_FILE : String := "weight_tiers.json"

/-- Canonical name of the services document. -/
def SERVICES_FILE : String := "services.json"

/-- Canonical name of the prices document. -/
def PRICES_FILE : String := "prices.json"

/-- Canonical name of the dimensions document. -/
def DIMENSIONS_FILE : String := "dimensions.json"

/-- Expected `lookup_method.array` literal. -/
def EXPECTED_LOOKUP_ARRAY : String := "prices.product_prices"

/-- Canonical weight unit. -/
def EXPECTED_WEIGHT_UNIT : String := "g"

/-- Canonical dimension unit. -/
def EXPECTED_DIMENSION_UNIT : String := "mm"

/-- Canonical price unit. -/
def EXPECTED_PRICE_UNIT : String := "cents"

/-- Canonical currency. -/
def EXPECTED_CURRENCY : String := "EUR"

/-! ## Validator state

Mirror of the `DataLinksValidator` instance attributes: the result buckets,
the seven loaded documents (`none` before a successful load, as in Python) and
the lookup structures built by `_build_lookup_structures`. -/

/-- Instance state of `DataLinksValidator`. -/
structure ValidatorState where
  results : ValidationResults
  data_links : Option DataLinksDoc
  products : Option ProductsDoc
  zones : Option ZonesDoc
  weight_tiers : Option WeightTiersDoc
  services : Option ServicesDoc
  prices : Option PricesDoc
  dimensions : Option DimensionsDoc
  product_dict : List (String × Product)
  zone_ids : List (String × Zone)
  weight_tier_ids : List String
  service_ids : List (String × Service)
  services_by_id : List (String × Service)
  product_prices : List ProductPrice
  service_prices : List ServicePrice
  all_data_files : List String
deriving DecidableEq

/-- State of a freshly constructed validator (`DataLinksValidator.__init__`). -/
def mkInitState : ValidatorState :=
  { results := emptyResults
    data_links := none
    products := none
    zones := none
    weight_tiers := none
    services := none
    prices := none
    dimensions := none
    product_dict := []
    zone_ids := []
    weight_tier_ids := []
    service_ids := []
    services_by_id := []
    product_prices := []
    service_prices := []
    all_data_files := [] }

/-! ## Unit-consistency helper (`validators/helpers.py`) -/

/-- Message of the `correct` branch of `validate_unit_consistency`. -/
def unitConsistentMsg (unit_name expected_value : String) : String :=
  "Unit " ++ unit_name ++ " " ++ sq ++ expected_value ++ sq ++
    " is consistent across all files"

/-- Message of the `warnings` branch of `validate_unit_consistency`. -/
def unitConsistentWarnMsg (unit_name : String) (data_links_value : Option String)
    (expected_value : String) (file_names : List String) : String :=
  "Unit " ++ unit_name ++ " " ++ sq ++ pyShowOpt data_links_value ++ sq ++
    " is consistent but verify it" ++ sq ++ "s correct. Expected: " ++ sq ++
    expected_value ++ sq ++ ". Found in: " ++ String.intercalate ", " file_names ++
    " -> unit -> " ++ unit_name

/-- Message of the `errors` branch of `validate_unit_consistency`; Python zips
the file names with the collected values. -/
def unitMismatchMsg (unit_name expected_value : String) (file_names : List String)
    (all_values : List (Option String)) : String :=
  pyCapitalize unit_name ++ " unit mismatch: " ++
    String.intercalate ", "
      ((file_names.zip all_values).map (fun nv => nv.1 ++ "=" ++ pyShowOpt nv.2)) ++
    ". Expected: " ++ sq ++ expected_value ++ sq

/-- Embedding of `helpers.validate_unit_consistency`.  Python tests
`len(set(all_values)) == 1`; for the nonempty list `all_values` this holds
exactly when every collected value equals the first one. -/
def validate_unit_consistency (unit_name : String) (data_links_value : Option String)
    (expected_value : String) (file_names : List String) (results : ValidationResults)
    (other_values : List (Option String)) : ValidationResults :=
  let all_values := data_links_value :: other_values
  if all_values.all (fun v => v == data_links_value) then
    if data_links_value = some expected_value then
      results.addCorrect (unitConsistentMsg unit_name expected_value)
    else
      results.addWarning
        (unitConsistentWarnMsg unit_name data_links_value expected_value file_names)
  else
    results.addError (unitMismatchMsg unit_name expected_value file_names all_values)

/-! ## Global settings validation (`validate_lookup_method` and helpers) -/

/-- Embedding of `_validate_file_reference`. -/
def validate_file_reference (all_data_files : List String)
    (actual expected field_name : String) (path_parts : List String)
    (results : ValidationResults) : ValidationResults :=
  if actual = expected then
    if all_data_files.contains expected then
      results.addCorrect (field_name ++ " " ++ sq ++ expected ++ sq ++ " matches actual file")
    else
      results.addError (field_name ++ " references " ++ sq ++ expected ++ sq ++
        " but file doesn" ++ sq ++ "t exist. Found in: " ++ DATA_LINKS_FILE ++ " -> " ++
        String.intercalate " -> " path_parts)
  else
    results.addError (field_name ++ " " ++ sq ++ actual ++ sq ++ " should be " ++ sq ++
      expected ++ sq ++ ". Found in: " ++ DATA_LINKS_FILE ++ " -> " ++
      String.intercalate " -> " path_parts)

/-- Condition `self.prices and "prices" in self.prices and "product_prices" in
self.prices["prices"]` of `_validate_lookup_array`. -/
def prices_has_product_prices : Option PricesDoc → Bool
  | none => false
  | some pd =>
    pd.truthy &&
      (match pd.prices with
       | none => false
       | some inner => inner.product_prices.isSome)

/-- Embedding of `_validate_lookup_array`. -/
def validate_lookup_array (prices : Option PricesDoc) (lookup_array : String)
    (results : ValidationResults) : ValidationResults :=
  if lookup_array = EXPECTED_LOOKUP_ARRAY then
    if prices_has_product_prices prices then
      results.addCorrect ("lookup_method.array " ++ sq ++ EXPECTED_LOOKUP_ARRAY ++ sq ++
        " matches actual structure")
    else
      results.addError ("Lookup method references " ++ sq ++ EXPECTED_LOOKUP_ARRAY ++ sq ++
        " but structure doesn" ++ sq ++ "t match. Found in: " ++ DATA_LINKS_FILE ++
        " -> global_settings -> lookup_method -> array")
  else
    results.addWarning ("Lookup method array path " ++ sq ++ lookup_array ++ sq ++
      " - verify this matches actual structure. Expected: " ++ sq ++
      EXPECTED_LOOKUP_ARRAY ++ sq ++ ". Found in: " ++ DATA_LINKS_FILE ++
      " -> global_settings -> lookup_method -> array")

/-- Embedding of `_validate_lookup_match_keys`. -/
def validate_lookup_match_keys (product_prices : List ProductPrice)
    (lookup_match_keys : List String) (results : ValidationResults) : ValidationResults :=
  match product_prices with
  | [] => results.addWarning "No product prices found to validate lookup_method.match keys"
  | first :: _ =>
    let sample_price_keys := strSetOf first.keys
    let match_keys_to_check :=
      (strSetOf lookup_match_keys).filter (fun k => k != "description")
    let missing_keys := strDiff match_keys_to_check sample_price_keys
    if missing_keys ≠ [] then
      results.addError ("lookup_method.match keys " ++ pyReprList missing_keys ++
        " do not exist in price entries. Available keys: " ++
        pyReprList sample_price_keys ++ ". Found in: " ++ DATA_LINKS_FILE ++
        " -> global_settings -> lookup_method -> match")
    else
      results.addCorrect ("lookup_method.match keys " ++ pyReprList match_keys_to_check ++
        " exist in price entries")

/-- Embedding of `validate_lookup_method`. -/
def validate_lookup_method (st : ValidatorState) : ValidatorState :=
  match st.data_links with
  | none => st
  | some dl =>
    let global_settings := dl.global_settings
    let lookup_method := global_settings.bind (fun gs => gs.lookup_method)
    let price_source := (global_settings.bind (fun gs => gs.price_source)).getD ""
    let r1 := validate_file_reference st.all_data_files
      ((lookup_method.bind (fun lm => lm.file)).getD "") PRICES_FILE
      "lookup_method.file" ["global_settings", "lookup_method", "file"] st.results
    let r2 := validate_file_reference st.all_data_files price_source PRICES_FILE
      "price_source" ["global_settings", "price_source"] r1
    let r3 := validate_lookup_array st.prices
      ((lookup_method.bind (fun lm => lm.array)).getD "") r2
    let r4 := validate_lookup_match_keys st.product_prices
      ((lookup_method.bind (fun lm => lm.match_keys)).getD []) r3
    { st with results := r4 }

/-! ## Links validation (`validate_links` and helpers)

Python iterates over set values whose order is unspecified but fixed inside a
process; the embedding iterates them in sorted order (set values are canonical
sorted lists).  A loop that only appends findings is rendered as an ordered
batch append of the per-element messages. -/

/-- Error message of the product-existence gate of `_validate_product_link`. -/
def productNotFoundMsg (product_id : String) : String :=
  "Product " ++ sq ++ product_id ++ sq ++ " in links does not exist in " ++
    PRODUCTS_FILE ++ ". Found in: " ++ DATA_LINKS_FILE ++ " -> links -> " ++ product_id

/-- Embedding of `_validate_product_zones`; both zone arguments are canonical
sets. -/
def validate_product_zones (st : ValidatorState) (product_id : String)
    (link_zones product_zones : List String) : ValidatorState :=
  let r1 := { st.results with
    errors := st.results.errors ++
      (link_zones.filter (fun z => !(pyDictContains st.zone_ids z))).map (fun zone =>
        "Zone " ++ sq ++ zone ++ sq ++ " for product " ++ sq ++ product_id ++ sq ++
          " does not exist in " ++ ZONES_FILE ++ ". Found in: " ++ DATA_LINKS_FILE ++
          " -> links -> " ++ product_id ++ " -> zones") }
  let r2 :=
    if link_zones = product_zones then
      r1.addCorrect ("Product " ++ sq ++ product_id ++ sq ++ ": zones match (" ++
        pyReprList link_zones ++ ")")
    else
      r1.addFixes ("Product " ++ sq ++ product_id ++ sq ++ ": zones mismatch - links: " ++
        pyReprList link_zones ++ ", product: " ++ pyReprList product_zones)
  { st with results := r2 }

/-- Error message for a weight tier referenced in links but unknown. -/
def wtUnknownMsg (wt product_id : String) : String :=
  "Weight tier " ++ sq ++ wt ++ sq ++ " for product " ++ sq ++ product_id ++ sq ++
    " does not exist in " ++ WEIGHT_TIERS_FILE ++ ". Found in: " ++ DATA_LINKS_FILE ++
    " -> links -> " ++ product_id ++ " -> weight_tiers"

/-- Correct message when the product record's own weight tier is declared. -/
def wtInLinksMsg (product_id wt : String) : String :=
  "Product " ++ sq ++ product_id ++ sq ++ ": weight_tier " ++ sq ++ wt ++ sq ++
    " is in links"

/-- Fixes message when the product record's own weight tier is not declared. -/
def wtNotInLinksMsg (product_id wt : String) (link_weight_tiers : List String) : String :=
  "Product " ++ sq ++ product_id ++ sq ++ ": weight_tier " ++ sq ++ wt ++ sq ++
    " from product not in links " ++ pyReprList link_weight_tiers

/-- Fixes message when prices exist for undeclared weight tiers. -/
def wtPriceTiersFixMsg (product_id : String) (missing_tiers : List String) : String :=
  "Product " ++ sq ++ product_id ++ sq ++ ": prices exist for weight_tiers " ++
    pyReprList missing_tiers ++ " but not in links"

/-- Correct message when the priced weight tiers equal the declared set. -/
def wtPriceTiersMatchMsg (product_id : String) (price_weight_tiers : List String) : String :=
  "Product " ++ sq ++ product_id ++ sq ++ ": all price weight_tiers match links (" ++
    pyReprList price_weight_tiers ++ ")"

/-- The set `{p["weight_tier"] for p in product_prices if p.get("product_id") ==
product_id}` of `_validate_product_weight_tiers`, in canonical form. -/
def price_weight_tiers_for (product_prices : List ProductPrice)
    (product_id : String) : List String :=
  strSetOf ((product_prices.filter (fun p => p.product_id == some product_id)).map
    (fun p => p.weight_tier))

/-- Embedding of `_validate_product_weight_tiers`; `link_weight_tiers` is a
canonical set. -/
def validate_product_weight_tiers (st : ValidatorState) (product_id : String)
    (link_weight_tiers : List String) (product_weight_tier : Option String) :
    ValidatorState :=
  let r1 := { st.results with
    errors := st.results.errors ++
      (link_weight_tiers.filter (fun wt => !(st.weight_tier_ids.contains wt))).map
        (fun wt => wtUnknownMsg wt product_id) }
  let price_weight_tiers := price_weight_tiers_for st.product_prices product_id
  let r2 :=
    if pyStrTruthy product_weight_tier &&
        link_weight_tiers.contains (product_weight_tier.getD "") then
      r1.addCorrect (wtInLinksMsg product_id (product_weight_tier.getD ""))
    else if pyStrTruthy product_weight_tier then
      r1.addFixes (wtNotInLinksMsg product_id (product_weight_tier.getD "") link_weight_tiers)
    else r1
  let missing_tiers := strDiff price_weight_tiers link_weight_tiers
  let r3 :=
    if missing_tiers ≠ [] then
      r2.addFixes (wtPriceTiersFixMsg product_id missing_tiers)
    else if price_weight_tiers = link_weight_tiers then
      r2.addCorrect (wtPriceTiersMatchMsg product_id price_weight_tiers)
    else r2
  { st with results := r3 }

/-- Embedding of `_validate_price_coverage`; the two set arguments are
canonical and the nested loops over them are a batch append of warnings. -/
def validate_price_coverage (st : ValidatorState) (product_id : String)
    (link_zones link_weight_tiers : List String) : ValidatorState :=
  let coverage_warnings := link_zones.flatMap (fun zone =>
    link_weight_tiers.filterMap (fun weight_tier =>
      if st.product_prices.any (fun p =>
          p.product_id == some product_id && p.zone == some zone &&
            p.weight_tier == weight_tier) then
        none
      else
        some ("No price found for product " ++ sq ++ product_id ++ sq ++ ", zone " ++
          sq ++ zone ++ sq ++ ", weight_tier " ++ sq ++ weight_tier ++ sq)))
  { st with results := { st.results with
      warnings := st.results.warnings ++ coverage_warnings } }

/-- Embedding of `_validate_product_link`. -/
def validate_product_link (st : ValidatorState) (product_id : String)
    (link_data : LinkData) : ValidatorState :=
  match pyDictGet st.product_dict product_id with
  | none => { st with results := st.results.addError (productNotFoundMsg product_id) }
  | some product =>
    let link_zones := strSetOf (link_data.zones.getD [])
    let link_weight_tiers := strSetOf (link_data.weight_tiers.getD [])
    let product_zones := strSetOf (product.supported_zones.getD [])
    let st1 := validate_product_zones st product_id link_zones product_zones
    let st2 := validate_product_weight_tiers st1 product_id link_weight_tiers
      product.weight_tier
    validate_price_coverage st2 product_id link_zones link_weight_tiers

/-- Embedding of `validate_links`. -/
def validate_links (st : ValidatorState) : ValidatorState :=
  match st.data_links with
  | none => st
  | some dl =>
    (dl.links.getD []).foldl (fun s kv => validate_product_link s kv.1 kv.2) st

/-- Fixes message of `validate_products_in_links`; the file name is a literal
in the source. -/
def productsNotInLinksMsg (missing_products : List String) : String :=
  "Products in products.json but not in links: " ++ pyReprList missing_products

/-- Embedding of `validate_products_in_links`. -/
def validate_products_in_links (st : ValidatorState) : ValidatorState :=
  match st.data_links with
  | none => st
  | some dl =>
    let links := dl.links.getD []
    let missing_products :=
      strDiff (pyDictKeys st.product_dict) (strSetOf (links.map Prod.fst))
    if missing_products ≠ [] then
      { st with results := st.results.addFixes (productsNotInLinksMsg missing_products) }
    else
      { st with results := st.results.addCorrect "All products are in links" }

/-- Embedding of `validate_zones_and_weight_tiers`. -/
def validate_zones_and_weight_tiers (st : ValidatorState) : ValidatorState :=
  match st.data_links with
  | none => st
  | some dl =>
    let links := dl.links.getD []
    let all_link_zones := strSetOf (links.flatMap (fun kv => kv.2.zones.getD []))
    let all_link_weight_tiers :=
      strSetOf (links.flatMap (fun kv => kv.2.weight_tiers.getD []))
    let invalid_zones := strDiff all_link_zones (pyDictKeys st.zone_ids)
    let r1 :=
      if invalid_zones = [] then st.results.addCorrect "All zones in links are valid"
      else st.results
    let invalid_weight_tiers := strDiff all_link_weight_tiers st.weight_tier_ids
    let r2 :=
      if invalid_weight_tiers = [] then r1.addCorrect "All weight_tiers in links are valid"
      else r1
    { st with results := r2 }

/-! ## Services validation (`validate_available_services` and helper) -/

/-- Error message when a priced service is missing from `services.json`. -/
def serviceNotFoundMsg (service_id : String) : String :=
  "Service " ++ sq ++ service_id ++ sq ++ " has prices but service not found in services.json"

/-- Error message when the service lacks `effective_to` while a price has one. -/
def serviceNoEffectiveToMsg (service_id price_effective_to : String) : String :=
  "Service " ++ sq ++ service_id ++ sq ++ " has prices with effective_to=" ++ sq ++
    price_effective_to ++ sq ++
    " but service does not have effective_to set. Service must be marked as discontinued " ++
    "when prices are discontinued. Price found in: " ++ PRICES_FILE ++
    " -> prices -> service_prices. Service found in: " ++ SERVICES_FILE ++ " -> services"

/-- Error message when the two `effective_to` dates differ. -/
def serviceDatesMismatchMsg (service_id price_effective_to service_effective_to : String) :
    String :=
  "Service " ++ sq ++ service_id ++ sq ++ " has price effective_to=" ++ sq ++
    price_effective_to ++ sq ++ " but service effective_to=" ++ sq ++
    service_effective_to ++ sq ++ ". Dates must match. Price found in: " ++ PRICES_FILE ++
    " -> prices -> service_prices. Service found in: " ++ SERVICES_FILE ++ " -> services"

/-- The inner loop of `_validate_service_price_consistency` that resolves the
price's `effective_to` as the first non-null value of the history, breaking at
the first hit. -/
def first_price_effective_to (price_entries : List PriceItem) : Option String :=
  price_entries.findSome? (fun price_item => price_item.effective_to)

/-- Loop body of `_validate_service_price_consistency` for one service-price
entry, returning the error finding it appends, if any.  A falsy `service_id`
(`None` or `""`) skips the entry; a looked-up service record always carries its
`id` key, so Python's `if not service` is exactly the failed lookup. -/
def service_price_entry_finding (services_by_id : List (String × Service))
    (price_entry : ServicePrice) : Option String :=
  if pyStrTruthy price_entry.service_id then
    let service_id := price_entry.service_id.getD ""
    match first_price_effective_to (price_entry.price.getD []) with
    | none => none
    | some price_effective_to =>
      match pyDictGet services_by_id service_id with
      | none => some (serviceNotFoundMsg service_id)
      | some service =>
        match service.effective_to with
        | none => some (serviceNoEffectiveToMsg service_id price_effective_to)
        | some service_effective_to =>
          if service_effective_to ≠ price_effective_to then
            some (serviceDatesMismatchMsg service_id price_effective_to service_effective_to)
          else none
  else none

/-- Embedding of `_validate_service_price_consistency`: the loop appends, in
order, the error finding of each entry that produces one. -/
def validate_service_price_consistency (st : ValidatorState) : ValidatorState :=
  { st with results := { st.results with
      errors := st.results.errors ++
        st.service_prices.filterMap (service_price_entry_finding st.services_by_id) } }

/-- Embedding of `validate_available_services`. -/
def validate_available_services (st : ValidatorState) : ValidatorState :=
  match st.data_links with
  | none => st
  | some dl =>
    let available_services :=
      (dl.global_settings.bind (fun gs => gs.available_services)).getD []
    let r1 := { st.results with
      errors := st.results.errors ++
        (available_services.filter (fun sid => !(pyDictContains st.service_ids sid))).map
          (fun service_id =>
            "Service " ++ sq ++ service_id ++ sq ++
              " in available_services does not exist in " ++ SERVICES_FILE ++
              ". Found in: " ++ DATA_LINKS_FILE ++ " -> global_settings -> available_services") }
    let service_price_ids := st.service_prices.map (fun sp => sp.service_id)
    let r2 := { r1 with
      warnings := r1.warnings ++
        (available_services.filter (fun sid => !(service_price_ids.contains (some sid)))).map
          (fun service_id =>
            "Service " ++ sq ++ service_id ++ sq ++
              " is listed as available but has no price in prices.json") }
    validate_service_price_consistency { st with results := r2 }

/-! ## Dependencies validation (`validate_dependencies`) -/

/-- Embedding of `validate_dependencies`.  `files_in_dependencies` is a set of
optional strings in Python; only membership of it is ever used, so it is kept
as the raw value list. -/
def validate_dependencies (st : ValidatorState) : ValidatorState :=
  match st.data_links with
  | none => st
  | some dl =>
    let dependencies := dl.dependencies.getD []
    let expected_data_files := strDiff st.all_data_files [DATA_LINKS_FILE]
    let files_in_dependencies := dependencies.map (fun kv => kv.2.file)
    let missing_in_dependencies :=
      expected_data_files.filter (fun f => !(files_in_dependencies.contains (some f)))
    let r1 :=
      if missing_in_dependencies ≠ [] then
        st.results.addFixes ("Data files not in dependencies section: " ++
          pyReprList missing_in_dependencies)
      else st.results.addCorrect "All data files are covered in dependencies section"
    let dep_warnings := dependencies.flatMap (fun kv =>
      (if !(match kv.2.file with
            | some f => st.all_data_files.contains f
            | none => false) then
        ["Dependency file " ++ sq ++ pyShowOpt kv.2.file ++ sq ++ " is not a known data file"]
      else []) ++
      ((kv.2.depends_on.getD []).filter (fun n => !(st.all_data_files.contains n))).map
        (fun dep_file_name =>
          "Dependency " ++ sq ++ dep_file_name ++ sq ++ " in " ++ sq ++ kv.1 ++ sq ++
            " is not a known data file"))
    { st with results := { r1 with warnings := r1.warnings ++ dep_warnings } }

/-! ## Units validation (`validate_units` and the four wrappers) -/

/-- Embedding of `validate_weight_units`; Python's `if not all([...]): return`
skips the check when any participating document is `None` or a falsy (empty)
dict. -/
def validate_weight_units (st : ValidatorState) : ValidatorState :=
  match st.data_links, st.products, st.weight_tiers with
  | some dl, some productsDoc, some wtDoc =>
    if dl.truthy && productsDoc.truthy && wtDoc.truthy then
      let r := validate_unit_consistency "weight" (dl.unit.bind (fun u => u.weight))
        EXPECTED_WEIGHT_UNIT [DATA_LINKS_FILE, PRODUCTS_FILE, WEIGHT_TIERS_FILE]
        st.results
        [productsDoc.unit.bind (fun u => u.weight), wtDoc.unit.bind (fun u => u.weight)]
      { st with results := r }
    else st
  | _, _, _ => st

/-- Embedding of `validate_dimension_units`. -/
def validate_dimension_units (st : ValidatorState) : ValidatorState :=
  match st.data_links, st.products, st.dimensions with
  | some dl, some productsDoc, some dimDoc =>
    if dl.truthy && productsDoc.truthy && dimDoc.truthy then
      let r := validate_unit_consistency "dimension" (dl.unit.bind (fun u => u.dimension))
        EXPECTED_DIMENSION_UNIT [DATA_LINKS_FILE, PRODUCTS_FILE, DIMENSIONS_FILE]
        st.results
        [productsDoc.unit.bind (fun u => u.dimension),
         dimDoc.unit.bind (fun u => u.dimension)]
      { st with results := r }
    else st
  | _, _, _ => st

/-- Embedding of `validate_price_units`. -/
def validate_price_units (st : ValidatorState) : ValidatorState :=
  match st.data_links, st.prices with
  | some dl, some pricesDoc =>
    if dl.truthy && pricesDoc.truthy then
      let r := validate_unit_consistency "price" (dl.unit.bind (fun u => u.price))
        EXPECTED_PRICE_UNIT [DATA_LINKS_FILE, PRICES_FILE] st.results
        [pricesDoc.unit.bind (fun u => u.price)]
      { st with results := r }
    else st
  | _, _ => st

/-- Embedding of `validate_currency_units`. -/
def validate_currency_units (st : ValidatorState) : ValidatorState :=
  match st.data_links, st.prices with
  | some dl, some pricesDoc =>
    if dl.truthy && pricesDoc.truthy then
      let r := validate_unit_consistency "currency" (dl.unit.bind (fun u => u.currency))
        EXPECTED_CURRENCY [DATA_LINKS_FILE, PRICES_FILE] st.results
        [pricesDoc.unit.bind (fun u => u.currency)]
      { st with results := r }
    else st
  | _, _ => st

/-- Embedding of `validate_units`. -/
def validate_units (st : ValidatorState) : ValidatorState :=
  validate_currency_units (validate_price_units (validate_dimension_units
    (validate_weight_units st)))

/-! ## Circular dependencies (`validate_circular_dependencies`) -/

/-- The warning text of the hard-coded products/prices cycle check. -/
def circularDependencyMsg : String :=
  "Circular dependency detected: products depends on prices, and prices depends on " ++
    "products. This may be intentional but should be reviewed."

/-- Graph construction of `validate_circular_dependencies`: node names have
every occurrence of `".json"` replaced by the empty string, and a later entry
with the same node name overwrites an earlier one (dict assignment). -/
def build_dep_graph (dependencies : List (String × DepData)) :
    List (String × List String) :=
  dependencies.map (fun kv =>
    (pyStrReplace (kv.2.file.getD "") ".json" "",
     strSetOf ((kv.2.depends_on.getD []).map (fun d => pyStrReplace d ".json" ""))))

/-- Python `dep_graph.get(k, set())`. -/
def dep_graph_get (g : List (String × List String)) (k : String) : List String :=
  (pyDictGet g k).getD []

/-- Embedding of `validate_circular_dependencies`. -/
def validate_circular_dependencies (st : ValidatorState) : ValidatorState :=
  match st.data_links with
  | none => st
  | some dl =>
    let dep_graph := build_dep_graph (dl.dependencies.getD [])
    if (dep_graph_get dep_graph "prices").contains "products" &&
        (dep_graph_get dep_graph "products").contains "prices" then
      { st with results := st.results.addWarning circularDependencyMsg }
    else st

/-! ## Document loading (`load_data`, `_build_lookup_structures`)

A data directory is modelled by the outcome of `load_json` for each of the
seven required documents: the parsed document, a `FileNotFoundError` message or
a `json.JSONDecodeError` message. -/

/-- Outcome of `load_json` on one file. -/
inductive LoadResult (α : Type) where
  | ok (doc : α)
  | fileNotFound (msg : String)
  | jsonDecodeFail (msg : String)
deriving DecidableEq

/-- The data directory as the validator observes it. -/
structure DataDir where
  data_links : LoadResult DataLinksDoc
  products : LoadResult ProductsDoc
  zones : LoadResult ZonesDoc
  weight_tiers : LoadResult WeightTiersDoc
  services : LoadResult ServicesDoc
  prices : LoadResult PricesDoc
  dimensions : LoadResult DimensionsDoc
deriving DecidableEq

/-- The error finding `load_data` records for a failed load, if any. -/
def loadErrorMsg {α : Type} : LoadResult α → Option String
  | .ok _ => none
  | .fileNotFound m => some ("Missing file: " ++ m)
  | .jsonDecodeFail m => some ("Invalid JSON: " ++ m)

/-- The first load failure of a directory, in the fixed load order of
`load_data`; `none` when all seven documents load. -/
def first_load_failure (dir : DataDir) : Option String :=
  ([loadErrorMsg dir.data_links, loadErrorMsg dir.products, loadErrorMsg dir.zones,
    loadErrorMsg dir.weight_tiers, loadErrorMsg dir.services, loadErrorMsg dir.prices,
    loadErrorMsg dir.dimensions]).findSome? id

/-- Embedding of `_build_lookup_structures`.  `all_data_files_input` is the set
`get_data_files()` supplies from `mappings.json` (an external collaborator),
stored in canonical form. -/
def build_lookup_structures (all_data_files_input : List String)
    (st : ValidatorState) : ValidatorState :=
  match st.products, st.zones with
  | some productsDoc, some zonesDoc =>
    { st with
      product_dict := (productsDoc.products.getD []).map (fun p => (p.id, p))
      zone_ids := (zonesDoc.zones.getD []).map (fun z => (z.id, z))
      weight_tier_ids :=
        (match st.weight_tiers with
         | some wtDoc => if wtDoc.truthy then strSetOf (wtDoc.weight_tiers.getD []) else []
         | none => [])
      service_ids :=
        (match st.services with
         | some sDoc =>
           if sDoc.truthy then (sDoc.services.getD []).map (fun s => (s.id, s)) else []
         | none => [])
      services_by_id :=
        (match st.services with
         | some sDoc =>
           if sDoc.truthy then (sDoc.services.getD []).map (fun s => (s.id, s)) else []
         | none => [])
      product_prices :=
        (match st.prices with
         | some pDoc =>
           if pDoc.truthy then
             (match pDoc.prices with
              | some inner => inner.product_prices.getD []
              | none => [])
           else []
         | none => [])
      service_prices :=
        (match st.prices with
         | some pDoc =>
           if pDoc.truthy then
             (match pDoc.prices with
              | some inner => inner.service_prices.getD []
              | none => [])
           else []
         | none => [])
      all_data_files := strSetOf all_data_files_input }
  | _, _ => st

/-- One step of the `try` block of `load_data`: on a failed load append the
error finding and stop, otherwise continue with the parsed document. -/
def afterLoad {α : Type} (r : LoadResult α) (st : ValidatorState)
    (k : α → ValidatorState) : ValidatorState :=
  match r with
  | .ok d => k d
  | .fileNotFound m => { st with results := st.results.addError ("Missing file: " ++ m) }
  | .jsonDecodeFail m => { st with results := st.results.addError ("Invalid JSON: " ++ m) }

/-- Embedding of `load_data`: memoized, loads the seven documents in order,
records one error finding for the first failure, and builds the lookup
structures only when every document loads. -/
def load_data (all_data_files_input : List String) (st : ValidatorState)
    (dir : DataDir) : ValidatorState :=
  if st.data_links.isSome then st
  else
    afterLoad dir.data_links st (fun dl =>
    let st := { st with data_links := some dl }
    afterLoad dir.products st (fun productsDoc =>
    let st := { st with products := some productsDoc }
    afterLoad dir.zones st (fun zonesDoc =>
    let st := { st with zones := some zonesDoc }
    afterLoad dir.weight_tiers st (fun wtDoc =>
    let st := { st with weight_tiers := some wtDoc }
    afterLoad dir.services st (fun sDoc =>
    let st := { st with services := some sDoc }
    afterLoad dir.prices st (fun pDoc =>
    let st := { st with prices := some pDoc }
    afterLoad dir.dimensions st (fun dimDoc =>
    let st := { st with dimensions := some dimDoc }
    build_lookup_structures all_data_files_input st)))))))

/-! ## Main orchestrator and reporters -/

/-- Embedding of `validate_all`: load, return early when loading recorded an
error, otherwise run every rule in the fixed order. -/
def validate_all (all_data_files_input : List String) (st : ValidatorState)
    (dir : DataDir) : ValidatorState :=
  let st := load_data all_data_files_input st dir
  if st.results.errors ≠ [] then st
  else
    validate_circular_dependencies (validate_units (validate_dependencies
      (validate_available_services (validate_zones_and_weight_tiers
        (validate_products_in_links (validate_links (validate_lookup_method st)))))))

/-- Exit code of `_print_validate_mode` (the printing itself is a side effect
outside the model). -/
def print_validate_mode (results : ValidationResults) : Nat :=
  if ¬ (results.errors.length > 0) then 0 else 1

/-- Exit code of `_print_analyze_mode`; the summary counts errors, fixes and
warnings only. -/
def print_analyze_mode (results : ValidationResults) : Nat :=
  let total_issues :=
    results.errors.length + results.fixes_needed.length + results.warnings.length
  if total_issues = 0 then 0
  else if results.errors ≠ [] then 1 else 0

/-! ## Concrete example inputs -/

/-- The document `{}`: loads successfully, is falsy as a Python dict. -/
def emptyDataLinksDoc : DataLinksDoc := ⟨none, none, none, none, false⟩

/-- The document `{}` for products. -/
def emptyProductsDoc : ProductsDoc := ⟨none, none, false⟩

/-- The document `{}` for zones. -/
def emptyZonesDoc : ZonesDoc := ⟨none, false⟩

/-- The document `{}` for weight tiers. -/
def emptyWeightTiersDoc : WeightTiersDoc := ⟨none, none, false⟩

/-- The document `{}` for services. -/
def emptyServicesDoc : ServicesDoc := ⟨none, false⟩

/-- The document `{}` for prices. -/
def emptyPricesDoc : PricesDoc := ⟨none, none, false⟩

/-- The document `{}` for dimensions. -/
def emptyDimensionsDoc : DimensionsDoc := ⟨none, false⟩

/-- A directory whose seven documents all load as `{}`. -/
def emptyDocsDir : DataDir :=
  ⟨.ok emptyDataLinksDoc, .ok emptyProductsDoc, .ok emptyZonesDoc, .ok emptyWeightTiersDoc,
   .ok emptyServicesDoc, .ok emptyPricesDoc, .ok emptyDimensionsDoc⟩

/-- The validator state right after successfully loading `emptyDocsDir`. -/
def unitSkipState : ValidatorState := load_data [] mkInitState emptyDocsDir

/-- `emptyDocsDir` with the products file missing. -/
def missingProductsDir : DataDir := { emptyDocsDir with products := .fileNotFound "products.json" }

/-- A data-links document whose dependencies form the products/prices 2-cycle. -/
def circularDataLinksDoc : DataLinksDoc :=
  ⟨none, none,
   some [("products", ⟨some "products.json", some ["prices.json"]⟩),
         ("prices", ⟨some "prices.json", some ["products.json"]⟩)],
   none, false⟩

/-- A state carrying `circularDataLinksDoc`. -/
def circularState : ValidatorState := { mkInitState with data_links := some circularDataLinksDoc }

/-- A product record used by concrete witnesses. -/
def sampleProduct : Product := ⟨"p1", none, none⟩

/-- A state with one known product and an empty links section. -/
def oneProductState : ValidatorState :=
  { mkInitState with data_links := some emptyDataLinksDoc
                     product_dict := [("p1", sampleProduct)] }

/-- A service without `effective_to`. -/
def sampleService : Service := ⟨"s1", none⟩

/-- A service price whose history carries a non-null `effective_to`. -/
def sampleServicePriceEntry : ServicePrice := ⟨some "s1", some [⟨some "2024-12-31"⟩]⟩

/-- A service price with an empty-string `service_id` and a non-null
`effective_to` in its history. -/
def blankServicePriceEntry : ServicePrice := ⟨some "", some [⟨some "2024-12-31"⟩]⟩

/-- The fresh validator state written out field by field. -/
def explicitInitState : ValidatorState :=
  ⟨⟨[], [], [], []⟩, none, none, none, none, none, none, none, [], [], [], [], [], [], [], []⟩

/-! ## Theorems -/

/-- C4: for every entry `(product_id, link_data)` of `data_links.links` whose
product id is absent from `product_dict`, per-product link validation appends
exactly one error finding naming that product and performs none of the
per-product sub-checks: the state is unchanged except for that single appended
error. -/
theorem missing_product_skips_subchecks (st : ValidatorState) (product_id : String)
    (link_data : LinkData) (h : pyDictGet st.product_dict product_id = none) :
    validate_product_link st product_id link_data =
      { st with results := st.results.addError (productNotFoundMsg product_id) } := by
  unfold validate_product_link
  rw [h]

/-- Witness for C4 at a concrete input: the empty product dictionary knows no
product `p1`. -/
theorem missing_product_skips_subchecks_witness :
    validate_product_link mkInitState "p1" ⟨none, none⟩ =
      { mkInitState with results := mkInitState.results.addError (productNotFoundMsg "p1") } :=
  missing_product_skips_subchecks mkInitState "p1" ⟨none, none⟩ (by decide)

/-- C10: a service-price entry whose `service_id` is absent, null or the empty
string is skipped entirely: it contributes no finding of any category, even
when its price history carries a non-null `effective_to`; the consistency check
as a whole appends exactly the per-entry error findings to the errors bucket
and nothing anywhere else. -/
theorem falsy_service_id_skips_entry (services_by_id : List (String × Service))
    (entry : ServicePrice)
    (h : entry.service_id = none ∨ entry.service_id = some "") :
    service_price_entry_finding services_by_id entry = none
    ∧ ∀ st : ValidatorState,
        (validate_service_price_consistency st).results =
          { st.results with
            errors := st.results.errors ++
              st.service_prices.filterMap (service_price_entry_finding st.services_by_id) } := by
  constructor
  · rcases h with h | h <;> simp [service_price_entry_finding, pyStrTruthy, h]
  · intro st
    rfl

/-- Witness for C10 at a concrete input: an entry with `service_id = ""` and a
non-null `effective_to` in its history produces no finding. -/
theorem falsy_service_id_skips_entry_witness :
    service_price_entry_finding [] blankServicePriceEntry = none :=
  (falsy_service_id_skips_entry [] blankServicePriceEntry (Or.inr rfl)).1

/-- C7: with a loaded data-links document, the completeness check appends
exactly one finding: a single combined fixes-needed finding listing all
product ids missing from the links keys, sorted, when that set difference is
non-empty, and a single correct finding otherwise. -/
theorem products_in_links_single_finding (st : ValidatorState) (dl : DataLinksDoc)
    (h : st.data_links = some dl) :
    validate_products_in_links st =
      (if strDiff (pyDictKeys st.product_dict) (strSetOf ((dl.links.getD []).map Prod.fst)) ≠ [] then
        { st with results := st.results.addFixes (productsNotInLinksMsg
            (strDiff (pyDictKeys st.product_dict)
              (strSetOf ((dl.links.getD []).map Prod.fst)))) }
      else { st with results := st.results.addCorrect "All products are in links" }) := by
  simp [validate_products_in_links, h]

/-- Witness for C7 at a concrete input: one known product, empty links. -/
theorem products_in_links_single_finding_witness :
    validate_products_in_links oneProductState =
      { oneProductState with
        results := oneProductState.results.addFixes (productsNotInLinksMsg ["p1"]) } :=
  (products_in_links_single_finding oneProductState emptyDataLinksDoc rfl).trans (by decide)

/-- C9: `validate_all` is deterministic: two runs on identical directory
contents, each from a fresh validator instance, produce identical finding
lists in all four categories. -/
theorem validate_all_deterministic (adf : List String) (dir : DataDir)
    (s1 s2 : ValidatorState) (h1 : s1 = mkInitState) (h2 : s2 = mkInitState) :
    (validate_all adf s1 dir).results.errors = (validate_all adf s2 dir).results.errors
    ∧ (validate_all adf s1 dir).results.warnings = (validate_all adf s2 dir).results.warnings
    ∧ (validate_all adf s1 dir).results.fixes_needed =
        (validate_all adf s2 dir).results.fixes_needed
    ∧ (validate_all adf s1 dir).results.correct = (validate_all adf s2 dir).results.correct := by
  subst h1
  subst h2
  exact ⟨rfl, rfl, rfl, rfl⟩

/-- Witness for C9 at a concrete input: the same directory validated from two
fresh instances. -/
theorem validate_all_deterministic_witness :
    (validate_all [] mkInitState emptyDocsDir).results.errors =
      (validate_all [] explicitInitState emptyDocsDir).results.errors :=
  (validate_all_deterministic [] emptyDocsDir mkInitState explicitInitState rfl (by decide)).1

/-- C1: for a service-price entry with a (truthy) `service_id`, the price's
`effective_to` is resolved as the first non-null `effective_to` of the history
in its given order (the third conjunct states the first-match recurrence); when
it resolves non-null the entry contributes exactly one error finding if the
service is absent, exactly one if the service's own `effective_to` is null,
exactly one if the two dates differ, and none if they agree; when nothing in
the history is non-null the entry contributes no finding.  The final conjunct
shows the rule appends exactly these per-entry error findings and touches no
other category. -/
theorem service_price_effective_to_consistency
    (services_by_id : List (String × Service)) (entry : ServicePrice)
    (service_id : String) (hsid : entry.service_id = some service_id)
    (hne : service_id ≠ "") :
    (first_price_effective_to (entry.price.getD []) = none →
      service_price_entry_finding services_by_id entry = none)
    ∧ (∀ d, first_price_effective_to (entry.price.getD []) = some d →
        (pyDictGet services_by_id service_id = none →
          service_price_entry_finding services_by_id entry =
            some (serviceNotFoundMsg service_id))
        ∧ (∀ svc, pyDictGet services_by_id service_id = some svc →
            (svc.effective_to = none →
              service_price_entry_finding services_by_id entry =
                some (serviceNoEffectiveToMsg service_id d))
            ∧ (∀ d2, svc.effective_to = some d2 →
                (d2 ≠ d →
                  service_price_entry_finding services_by_id entry =
                    some (serviceDatesMismatchMsg service_id d d2))
                ∧ (d2 = d → service_price_entry_finding services_by_id entry = none))))
    ∧ (∀ (item : PriceItem) (rest : List PriceItem),
        first_price_effective_to (item :: rest) =
          (match item.effective_to with
           | some d => some d
           | none => first_price_effective_to rest))
    ∧ (∀ st : ValidatorState,
        (validate_service_price_consistency st).results =
          { st.results with
            errors := st.results.errors ++
              st.service_prices.filterMap (service_price_entry_finding st.services_by_id) }) := by
  have htr : pyStrTruthy entry.service_id = true := by
    simp [pyStrTruthy, hsid, hne]
  have hget : entry.service_id.getD "" = service_id := by
    simp [hsid]
  refine ⟨?_, ?_, ?_, ?_⟩
  · intro hnone
    simp [service_price_entry_finding, htr, hget, hnone]
  · intro d hd
    constructor
    · intro hmiss
      simp [service_price_entry_finding, htr, hget, hd, hmiss]
    · intro svc hsvc
      constructor
      · intro heto
        simp [service_price_entry_finding, htr, hget, hd, hsvc, heto]
      · intro d2 hd2
        constructor
        · intro hne2
          simp [service_price_entry_finding, htr, hget, hd, hsvc, hd2, hne2]
        · intro heq
          simp [service_price_entry_finding, htr, hget, hd, hsvc, hd2, heq]
  · intro item rest
    obtain ⟨eto⟩ := item
    cases eto <;> rfl
  · intro st
    rfl

/-- Witness for C1 at a concrete input: a price history resolving to
`2024-12-31` against a service whose own `effective_to` is null. -/
theorem service_price_effective_to_consistency_witness :
    service_price_entry_finding [("s1", sampleService)] sampleServicePriceEntry =
      some (serviceNoEffectiveToMsg "s1" "2024-12-31") := by
  have h := service_price_effective_to_consistency [("s1", sampleService)]
    sampleServicePriceEntry "s1" (by decide) (by decide)
  exact ((h.2.1 "2024-12-31" (by decide)).2 sampleService (by decide)).1 (by decide)

/-- C8: the circular-dependency rule appends exactly one warning (the literal
message, which names the circular dependency) precisely when the graph built
from the dependency entries (node names with `".json"` stripped) contains both
the products/prices edges, and it appends nothing to any other category; no
other pair and no longer cycle can trigger it because the emitted delta depends
only on that one condition. -/
theorem circular_dependency_two_cycle (st : ValidatorState) (dl : DataLinksDoc)
    (h : st.data_links = some dl) :
    ((validate_circular_dependencies st).results.warnings =
      st.results.warnings ++
        (if (dep_graph_get (build_dep_graph (dl.dependencies.getD [])) "prices").contains
              "products" &&
            (dep_graph_get (build_dep_graph (dl.dependencies.getD [])) "products").contains
              "prices" then
          [circularDependencyMsg]
        else []))
    ∧ (validate_circular_dependencies st).results.errors = st.results.errors
    ∧ (validate_circular_dependencies st).results.fixes_needed = st.results.fixes_needed
    ∧ (validate_circular_dependencies st).results.correct = st.results.correct
    ∧ circularDependencyMsg =
        "Circular dependency detected: products depends on prices, and prices depends on " ++
          "products. This may be intentional but should be reviewed." := by
  by_cases hc :
      ("products" ∈ dep_graph_get (build_dep_graph (dl.dependencies.getD [])) "prices" ∧
        "prices" ∈ dep_graph_get (build_dep_graph (dl.dependencies.getD [])) "products") <;>
    simp [validate_circular_dependencies, h, hc, ValidationResults.addWarning,
      circularDependencyMsg]

/-- Witness for C8 at a concrete input: dependencies `products -> [prices]` and
`prices -> [products]` produce exactly the one circular-dependency warning. -/
theorem circular_dependency_two_cycle_witness :
    (validate_circular_dependencies circularState).results.warnings =
      [circularDependencyMsg] :=
  ((circular_dependency_two_cycle circularState circularDataLinksDoc rfl).1).trans (by decide)

/-- C5: validate mode exits 0 exactly when the errors category is empty,
regardless of warnings and fixes-needed; analyze mode exits 0 when the total
finding count over all four categories is zero, otherwise 1 when errors is
non-empty and 0 when it is empty (the code sums only three categories, but the
resulting exit code agrees with this description on every input). -/
theorem reporter_exit_codes (results : ValidationResults) :
    print_validate_mode results = (if results.errors = [] then 0 else 1)
    ∧ print_analyze_mode results =
        (if results.errors.length + results.warnings.length + results.fixes_needed.length +
            results.correct.length = 0 then 0
         else if results.errors ≠ [] then 1 else 0) := by
  obtain ⟨es, ws, fs, cs⟩ := results
  constructor
  · cases es <;> simp [print_validate_mode]
  · cases es <;> cases ws <;> cases fs <;> cases cs <;>
      simp [print_analyze_mode]

/-- C6: writing `ptf` for the set of weight tiers priced for this product, the
weight-tier rule appends exactly one fixes-needed finding listing the sorted
surplus `ptf` minus the declared set when that difference is non-empty,
exactly one correct finding when `ptf` equals the declared set, and neither
when `ptf` is a strict subset; the equations list the complete deltas of the
fixes-needed and correct buckets (the only other contributions come from the
separate product-own-weight-tier check). -/
theorem weight_tier_price_findings (st : ValidatorState) (product_id : String)
    (link_weight_tiers : List String) (product_weight_tier : Option String) :
    ((validate_product_weight_tiers st product_id link_weight_tiers
        product_weight_tier).results.fixes_needed =
      st.results.fixes_needed ++
        (if pyStrTruthy product_weight_tier = true ∧
            product_weight_tier.getD "" ∉ link_weight_tiers then
          [wtNotInLinksMsg product_id (product_weight_tier.getD "") link_weight_tiers]
        else []) ++
        (if strDiff (price_weight_tiers_for st.product_prices product_id)
            link_weight_tiers ≠ [] then
          [wtPriceTiersFixMsg product_id
            (strDiff (price_weight_tiers_for st.product_prices product_id) link_weight_tiers)]
        else []))
    ∧ ((validate_product_weight_tiers st product_id link_weight_tiers
        product_weight_tier).results.correct =
      st.results.correct ++
        (if pyStrTruthy product_weight_tier = true ∧
            product_weight_tier.getD "" ∈ link_weight_tiers then
          [wtInLinksMsg product_id (product_weight_tier.getD "")]
        else []) ++
        (if strDiff (price_weight_tiers_for st.product_prices product_id)
              link_weight_tiers = [] ∧
            price_weight_tiers_for st.product_prices product_id = link_weight_tiers then
          [wtPriceTiersMatchMsg product_id
            (price_weight_tiers_for st.product_prices product_id)]
        else [])) := by
  by_cases h1 : pyStrTruthy product_weight_tier = true <;>
    by_cases h2 : product_weight_tier.getD "" ∈ link_weight_tiers <;>
      by_cases h3 : strDiff (price_weight_tiers_for st.product_prices product_id)
          link_weight_tiers = [] <;>
        by_cases h4 : price_weight_tiers_for st.product_prices product_id =
            link_weight_tiers <;>
          simp_all [validate_product_weight_tiers, ValidationResults.addFixes,
            ValidationResults.addCorrect]

/-- C2 counterexample: all seven documents load successfully as the empty JSON
object `{}`, yet the unit checks append no finding at all (Python's
`if not all([...])` guard treats an empty dict as falsy and skips the check),
contradicting the claim that every successfully loaded document set receives
exactly one finding per unit dimension. -/
theorem unit_checks_skipped_on_empty_documents :
    unitSkipState.results = emptyResults
    ∧ unitSkipState.data_links = some emptyDataLinksDoc
    ∧ validate_units unitSkipState = unitSkipState := by
  refine ⟨?_, ?_, ?_⟩ <;> decide

/-- C2 as amended: when every participating document of a dimension is a
non-empty (truthy) object, the wrapper hands the per-document values (null
when the `unit` field is absent) to the shared helper, and the helper appends
exactly one finding: correct when all collected values are identical and equal
the canonical value, warning when identical but different from it, and an
error listing each document's value by name when they diverge. -/
theorem unit_consistency_three_way :
    (∀ (unit_name : String) (data_links_value : Option String) (expected_value : String)
        (file_names : List String) (results : ValidationResults)
        (other_values : List (Option String)),
      (((data_links_value :: other_values).all (fun v => v == data_links_value)) = true →
        (data_links_value = some expected_value →
          validate_unit_consistency unit_name data_links_value expected_value file_names
              results other_values =
            results.addCorrect (unitConsistentMsg unit_name expected_value))
        ∧ (data_links_value ≠ some expected_value →
          validate_unit_consistency unit_name data_links_value expected_value file_names
              results other_values =
            results.addWarning
              (unitConsistentWarnMsg unit_name data_links_value expected_value file_names)))
      ∧ (((data_links_value :: other_values).all (fun v => v == data_links_value)) = false →
        validate_unit_consistency unit_name data_links_value expected_value file_names
            results other_values =
          results.addError (unitMismatchMsg unit_name expected_value file_names
            (data_links_value :: other_values))))
    ∧ (∀ (st : ValidatorState) (dl : DataLinksDoc) (pdoc : ProductsDoc)
        (wtd : WeightTiersDoc), st.data_links = some dl → st.products = some pdoc →
        st.weight_tiers = some wtd →
        dl.truthy = true → pdoc.truthy = true → wtd.truthy = true →
        validate_weight_units st =
          { st with results := (validate_unit_consistency "weight"
              (dl.unit.bind (fun u => u.weight)) EXPECTED_WEIGHT_UNIT
              [DATA_LINKS_FILE, PRODUCTS_FILE, WEIGHT_TIERS_FILE] st.results
              [pdoc.unit.bind (fun u => u.weight), wtd.unit.bind (fun u => u.weight)]) })
    ∧ (∀ (st : ValidatorState) (dl : DataLinksDoc) (pdoc : ProductsDoc)
        (dimd : DimensionsDoc), st.data_links = some dl → st.products = some pdoc →
        st.dimensions = some dimd →
        dl.truthy = true → pdoc.truthy = true → dimd.truthy = true →
        validate_dimension_units st =
          { st with results := (validate_unit_consistency "dimension"
              (dl.unit.bind (fun u => u.dimension)) EXPECTED_DIMENSION_UNIT
              [DATA_LINKS_FILE, PRODUCTS_FILE, DIMENSIONS_FILE] st.results
              [pdoc.unit.bind (fun u => u.dimension), dimd.unit.bind (fun u => u.dimension)]) })
    ∧ (∀ (st : ValidatorState) (dl : DataLinksDoc) (prd : PricesDoc),
        st.data_links = some dl → st.prices = some prd →
        dl.truthy = true → prd.truthy = true →
        validate_price_units st =
          { st with results := (validate_unit_consistency "price"
              (dl.unit.bind (fun u => u.price)) EXPECTED_PRICE_UNIT
              [DATA_LINKS_FILE, PRICES_FILE] st.results
              [prd.unit.bind (fun u => u.price)]) })
    ∧ (∀ (st : ValidatorState) (dl : DataLinksDoc) (prd : PricesDoc),
        st.data_links = some dl → st.prices = some prd →
        dl.truthy = true → prd.truthy = true →
        validate_currency_units st =
          { st with results := (validate_unit_consistency "currency"
              (dl.unit.bind (fun u => u.currency)) EXPECTED_CURRENCY
              [DATA_LINKS_FILE, PRICES_FILE] st.results
              [prd.unit.bind (fun u => u.currency)]) }) := by
  refine ⟨?_, ?_, ?_, ?_, ?_⟩
  · intro unit_name data_links_value expected_value file_names results other_values
    constructor
    · intro hall
      constructor
      · intro heq
        simp_all [validate_unit_consistency]
      · intro hne
        simp_all [validate_unit_consistency]
    · intro hall
      simp_all [validate_unit_consistency]
  · intro st dl pdoc wtd h1 h2 h3 t1 t2 t3
    simp [validate_weight_units, h1, h2, h3, t1, t2, t3]
  · intro st dl pdoc dimd h1 h2 h3 t1 t2 t3
    simp [validate_dimension_units, h1, h2, h3, t1, t2, t3]
  · intro st dl prd h1 h2 t1 t2
    simp [validate_price_units, h1, h2, t1, t2]
  · intro st dl prd h1 h2 t1 t2
    simp [validate_currency_units, h1, h2, t1, t2]

/-- Witness for the amended C2 at a concrete input: three identical canonical
weight values yield the single correct finding. -/
theorem unit_consistency_three_way_witness :
    validate_unit_consistency "weight" (some "g") "g"
        [DATA_LINKS_FILE, PRODUCTS_FILE, WEIGHT_TIERS_FILE] emptyResults
        [some "g", some "g"] =
      emptyResults.addCorrect (unitConsistentMsg "weight" "g") := by
  have h := unit_consistency_three_way.1 "weight" (some "g") "g"
    [DATA_LINKS_FILE, PRODUCTS_FILE, WEIGHT_TIERS_FILE] emptyResults [some "g", some "g"]
  exact (h.1 (by decide)).1 rfl

/-- C3: when some required document is missing or malformed, `validate_all` on
a fresh validator records exactly one error finding for the first failure in
load order (prefixed `Missing file:` or `Invalid JSON:`), leaves every other
category empty, and builds none of the lookup structures. -/
theorem load_failure_aborts_run (adf : List String) (dir : DataDir) (msg : String)
    (h : first_load_failure dir = some msg) :
    (validate_all adf mkInitState dir).results = ⟨[msg], [], [], []⟩
    ∧ (validate_all adf mkInitState dir).product_dict = []
    ∧ (validate_all adf mkInitState dir).zone_ids = []
    ∧ (validate_all adf mkInitState dir).weight_tier_ids = []
    ∧ (validate_all adf mkInitState dir).service_ids = []
    ∧ (validate_all adf mkInitState dir).services_by_id = []
    ∧ (validate_all adf mkInitState dir).product_prices = []
    ∧ (validate_all adf mkInitState dir).service_prices = []
    ∧ (∃ m, msg = "Missing file: " ++ m ∨ msg = "Invalid JSON: " ++ m) := by
  obtain ⟨rdl, rp, rz, rwt, rs, rpr, rd⟩ := dir
  rcases rdl with dl | m | m
  · rcases rp with pdoc | m | m
    · rcases rz with zdoc | m | m
      · rcases rwt with wdoc | m | m
        · rcases rs with sdoc | m | m
          · rcases rpr with prdoc | m | m
            · rcases rd with ddoc | m | m
              · exact Option.noConfusion h
              · have hm := Option.some.inj h
                subst hm
                exact ⟨rfl, rfl, rfl, rfl, rfl, rfl, rfl, rfl, m, Or.inl rfl⟩
              · have hm := Option.some.inj h
                subst hm
                exact ⟨rfl, rfl, rfl, rfl, rfl, rfl, rfl, rfl, m, Or.inr rfl⟩
            · have hm := Option.some.inj h
              subst hm
              exact ⟨rfl, rfl, rfl, rfl, rfl, rfl, rfl, rfl, m, Or.inl rfl⟩
            · have hm := Option.some.inj h
              subst hm
              exact ⟨rfl, rfl, rfl, rfl, rfl, rfl, rfl, rfl, m, Or.inr rfl⟩
          · have hm := Option.some.inj h
            subst hm
            exact ⟨rfl, rfl, rfl, rfl, rfl, rfl, rfl, rfl, m, Or.inl rfl⟩
          · have hm := Option.some.inj h
            subst hm
            exact ⟨rfl, rfl, rfl, rfl, rfl, rfl, rfl, rfl, m, Or.inr rfl⟩
        · have hm := Option.some.inj h
          subst hm
          exact ⟨rfl, rfl, rfl, rfl, rfl, rfl, rfl, rfl, m, Or.inl rfl⟩
        · have hm := Option.some.inj h
          subst hm
          exact ⟨rfl, rfl, rfl, rfl, rfl, rfl, rfl, rfl, m, Or.inr rfl⟩
      · have hm := Option.some.inj h
        subst hm
        exact ⟨rfl, rfl, rfl, rfl, rfl, rfl, rfl, rfl, m, Or.inl rfl⟩
      · have hm := Option.some.inj h
        subst hm
        exact ⟨rfl, rfl, rfl, rfl, rfl, rfl, rfl, rfl, m, Or.inr rfl⟩
    · have hm := Option.some.inj h
      subst hm
      exact ⟨rfl, rfl, rfl, rfl, rfl, rfl, rfl, rfl, m, Or.inl rfl⟩
    · have hm := Option.some.inj h
      subst hm
      exact ⟨rfl, rfl, rfl, rfl, rfl, rfl, rfl, rfl, m, Or.inr rfl⟩
  · have hm := Option.some.inj h
    subst hm
    exact ⟨rfl, rfl, rfl, rfl, rfl, rfl, rfl, rfl, m, Or.inl rfl⟩
  · have hm := Option.some.inj h
    subst hm
    exact ⟨rfl, rfl, rfl, rfl, rfl, rfl, rfl, rfl, m, Or.inr rfl⟩

/-- Witness for C3 at a concrete input: a directory whose products file is
missing yields exactly the one load error and empty lookup structures. -/
theorem load_failure_aborts_run_witness :
    (validate_all [] mkInitState missingProductsDir).results =
      ⟨["Missing file: products.json"], [], [], []⟩ :=
  (load_failure_aborts_run [] missingProductsDir "Missing file: products.json" (by decide)).1

end Porto
